import Mathlib

/-!
Shallow embedding of the url-shortener backend (src/backend) for
verification of its specification.

Modelling conventions:
* Timestamps are integers (seconds); `timedelta(hours=h)` becomes `h * 3600`.
* The SQLAlchemy session is modelled as an explicit `AppState`; the single
  `db.commit()` that follows `db.add(click); url_record.clicks += 1` is one
  state update (`record_click`).
* The Redis client is modelled by `CacheState`; a `reachable := false` state
  makes every Redis call raise `CacheError.connectionError`, mirroring
  `redis.ConnectionError` from an unreachable backend.  `cache.py` installs
  no exception handler around `get`/`setex`/`delete`, so the error value
  propagates out of the embedded operations exactly as the Python exception
  propagates out of `redirect_url`.
* `random.choice(CHARACTERS)` is modelled by an arbitrary choice oracle
  `Nat → Nat` reduced modulo the alphabet size; the allocator receives one
  oracle per generation attempt.
* Pydantic request validation (`schemas.URLCreate`) is modelled by
  `validate_create`: the `HttpUrl` scheme check is approximated by the
  repository's own `is_valid_url` helper, `validate_slug` is translated
  literally, and `expires_in_hours` is passed through with no validator,
  as in `schemas.py`.  Pydantic's URL normalisation is not modelled.
* Python truthiness on `Optional[str]` / `Optional[int]` / cached strings
  (`if cached_url:`, `if data.custom_slug:`, `if data.expires_in_hours:`)
  is modelled explicitly: `none`, `some ""` and `some 0` are falsy.
-/

/-- models.URL (table `urls`). -/
structure URL where
  id : Nat
  original_url : String
  short_code : String
  is_custom : Bool
  created_at : Int
  expires_at : Option Int
  clicks : Nat
  is_active : Bool
deriving DecidableEq, Repr

/-- models.Click (table `clicks`); `id` and `clicked_at` are server-set and
not read anywhere in the backend, so they are omitted. -/
structure Click where
  url_id : Nat
  user_agent : Option String
  referer : Option String
deriving DecidableEq, Repr

/-- The Redis tier of cache.py: a reachability flag, the configured
`CACHE_TTL` (env default 3600), and the stored entries as
(key, value, ttl-at-insertion) triples. -/
structure CacheState where
  reachable : Bool
  ttl : Nat
  entries : List (String × String × Nat)
deriving DecidableEq, Repr

/-- The exception raised by the redis client when the backend is
unreachable (`redis.ConnectionError`). -/
inductive CacheError where
  | connectionError
deriving DecidableEq, Repr

/-- `redis_client.get`: raises when unreachable, otherwise returns the
stored value (or `none`). -/
def redis_get (c : CacheState) (key : String) : Except CacheError (Option String) :=
  if c.reachable then
    .ok ((c.entries.find? (fun e => e.1 == key)).map (fun e => e.2.1))
  else
    .error .connectionError

/-- `redis_client.setex`: raises when unreachable, otherwise overwrites the
entry for `key` and resets its TTL. -/
def redis_setex (c : CacheState) (key value : String) (ttl : Nat) :
    Except CacheError CacheState :=
  if c.reachable then
    .ok { c with entries := (key, value, ttl) :: c.entries.filter (fun e => e.1 != key) }
  else
    .error .connectionError

/-- cache.get_cached_url: `redis_client.get("url:" + short_code)`, no
exception handling. -/
def get_cached_url (c : CacheState) (short_code : String) :
    Except CacheError (Option String) :=
  redis_get c ("url:" ++ short_code)

/-- cache.cache_url: `redis_client.setex("url:" + short_code, CACHE_TTL,
original_url)`, no exception handling. -/
def cache_url (c : CacheState) (short_code original_url : String) :
    Except CacheError CacheState :=
  redis_setex c ("url:" ++ short_code) original_url c.ttl

/-- cache.invalidate_url: `redis_client.delete("url:" + short_code)`, no
exception handling. -/
def invalidate_url (c : CacheState) (short_code : String) :
    Except CacheError CacheState :=
  if c.reachable then
    .ok { c with entries := c.entries.filter (fun e => e.1 != "url:" ++ short_code) }
  else
    .error .connectionError

/-- The durable store plus the cache tier, as seen by one request. -/
structure AppState where
  urls : List URL
  clicks : List Click
  cache : CacheState
deriving DecidableEq, Repr

/-- helpers.is_expired: `expires_at < now`, `None` never expires. -/
def is_expired (expires_at : Option Int) (now : Int) : Bool :=
  match expires_at with
  | none => false
  | some t => decide (t < now)

/-- helpers.is_valid_url: `url.startswith(("http://", "https://"))`,
written over the character list so it evaluates by kernel reduction. -/
def is_valid_url (url : String) : Bool :=
  "http://".data.isPrefixOf url.data || "https://".data.isPrefixOf url.data

/-- The reserved-word list of main.redirect_url. -/
def RESERVED_WORDS : List String :=
  ["api", "health", "docs", "redoc", "openapi.json", "shorten", "stats", "cache"]

/-- The block `click = Click(...); db.add(click); url_record.clicks += 1;
db.commit()` that appears verbatim on both resolution paths of
main.redirect_url (lines 179–186 and 225–232): one ClickEvent is appended
and the owning row's counter incremented in a single commit. -/
def record_click (s : AppState) (r : URL) (user_agent referer : Option String) :
    AppState :=
  { s with
    clicks := s.clicks ++ [{ url_id := r.id, user_agent := user_agent, referer := referer }],
    urls := s.urls.map (fun u => if u.id == r.id then { u with clicks := u.clicks + 1 } else u) }

/-- The three response classes main.redirect_url can produce. -/
inductive RedirectResult where
  | redirect (url : String)
  | notFound (detail : String)
  | gone (detail : String)
deriving DecidableEq, Repr

/-- main.redirect_url.  An unhandled `redis.ConnectionError` escaping the
handler is the `.error` case. -/
def redirect_url (short_code : String) (user_agent referer : Option String)
    (now : Int) (s : AppState) : Except CacheError (RedirectResult × AppState) :=
  if short_code ∈ RESERVED_WORDS then
    .ok (.notFound "Not found", s)
  else
    match get_cached_url s.cache short_code with
    | .error e => .error e
    | .ok cached =>
      if cached.getD "" != "" then
        -- cache hit: redirect to the cached value; look the record up only
        -- to attribute the click, skipping attribution if it is gone
        let s1 :=
          match s.urls.find? (fun u => u.short_code == short_code) with
          | some url_record => record_click s url_record user_agent referer
          | none => s
        .ok (.redirect (cached.getD ""), s1)
      else
        -- cache miss: query the store
        match s.urls.find? (fun u => u.short_code == short_code) with
        | none => .ok (.notFound ("Short URL " ++ short_code ++ " not found!"), s)
        | some url_record =>
          if !url_record.is_active then
            .ok (.gone "This URL has been deactivated!", s)
          else if is_expired url_record.expires_at now then
            .ok (.gone "This URL has expired!", s)
          else
            match cache_url s.cache short_code url_record.original_url with
            | .error e => .error e
            | .ok c1 =>
              let s2 := record_click { s with cache := c1 } url_record user_agent referer
              .ok (.redirect url_record.original_url, s2)

/-- The raw JSON creation request body before pydantic validation. -/
structure RawCreate where
  original_url : String
  custom_slug : Option String
  expires_in_hours : Option Int
deriving DecidableEq, Repr

/-- schemas.URLCreate after validation. -/
structure URLCreate where
  original_url : String
  custom_slug : Option String
  expires_in_hours : Option Int
deriving DecidableEq, Repr

/-- Python `str.isalnum()`: nonempty and every character alphanumeric
(ASCII fragment). -/
def str_isalnum (s : String) : Bool :=
  !s.isEmpty && s.data.all Char.isAlphanum

/-- Python `str.lower()`: character-wise lower-casing (ASCII fragment,
which is all `validate_slug` can pass through). -/
def py_lower (s : String) : String :=
  String.mk (s.data.map Char.toLower)

/-- schemas.URLCreate.validate_slug. -/
def validate_slug (slug : Option String) : Except String (Option String) :=
  match slug with
  | none => .ok none
  | some slug =>
    if slug.length < 3 then .error "Slug must be at least 3 characters"
    else if slug.length > 10 then .error "Slug must be max 10 characters"
    else if !str_isalnum slug then .error "Slug can only contain letters and numbers"
    else .ok (some (py_lower slug))

/-- Pydantic validation of the request body: `HttpUrl` scheme check
(approximated by helpers.is_valid_url) and the slug validator;
`expires_in_hours : Optional[int]` has no validator in schemas.py and is
passed through unchecked. -/
def validate_create (raw : RawCreate) : Except String URLCreate :=
  if !is_valid_url raw.original_url then .error "Input should be a valid URL"
  else
    match validate_slug raw.custom_slug with
    | .error e => .error e
    | .ok slug =>
      .ok { original_url := raw.original_url, custom_slug := slug,
            expires_in_hours := raw.expires_in_hours }

/-- helpers.CHARACTERS: `string.ascii_letters + string.digits`. -/
def CHARACTERS : List Char :=
  "abcdefghijklmnopqrstuvwxyzABCDEFGHIJKLMNOPQRSTUVWXYZ0123456789".data

/-- helpers.generate_short_code: one `random.choice(CHARACTERS)` per
position, the random source modelled by the oracle `choice` reduced modulo
the alphabet size. -/
def generate_short_code (choice : Nat → Nat) (length : Nat := 6) : String :=
  String.mk ((List.range length).map
    (fun i => CHARACTERS.getD (choice i % CHARACTERS.length) 'a'))

/-- The `while attempts < max_attempts` loop of main.shorten_url (STEP 3):
generate a candidate, break on the first one absent from the store,
otherwise increment `attempts`; falling out of the loop with
`attempts == max_attempts` is the allocation failure (`none`).  The loop is
encoded structurally on `remaining = max_attempts - attempts`, so the entry
point is `find_unique_code choices urls 0 10`. -/
def find_unique_code (choices : Nat → Nat → Nat) (urls : List URL) :
    Nat → Nat → Option String
  | _attempts, 0 => none
  | attempts, remaining + 1 =>
    let short_code := generate_short_code (choices attempts) 6
    match urls.find? (fun u => u.short_code == short_code) with
    | none => some short_code
    | some _ => find_unique_code choices urls (attempts + 1) remaining

/-- The creation-time failures of main.shorten_url: HTTP 400 for a taken
custom slug, HTTP 500 for allocator exhaustion. -/
inductive CreateError where
  | slugTaken (slug : String)
  | allocExhausted
deriving DecidableEq, Repr

/-- schemas.URLResponse. -/
structure URLResponse where
  short_code : String
  short_url : String
  original_url : String
  created_at : Int
  expires_at : Option Int
  clicks : Nat
deriving DecidableEq, Repr

/-- Base URL for short links (env default). -/
def BASE_URL : String := "https://short.k4scloud.com"

/-- Python truthiness of an `Optional[str]`. -/
def opt_str_truthy : Option String → Bool
  | none => false
  | some v => v != ""

/-- STEP 4 of main.shorten_url: `expires_at = None`, then
`if data.expires_in_hours: expires_at = now + timedelta(hours=...)`;
`some 0` is falsy in Python, so it leaves `expires_at = None`. -/
def compute_expires_at (expires_in_hours : Option Int) (now : Int) : Option Int :=
  match expires_in_hours with
  | some h => if h != 0 then some (now + h * 3600) else none
  | none => none

/-- main.shorten_url on a validated body.  `next_id` models the
autoincrement primary key, `now` the database clock (`func.now()`). -/
def shorten_url (data : URLCreate) (choices : Nat → Nat → Nat) (now : Int)
    (next_id : Nat) (s : AppState) : Except CreateError (URLResponse × AppState) :=
  let alloc : Except CreateError (String × Bool) :=
    if opt_str_truthy data.custom_slug then
      let slug := data.custom_slug.getD ""
      match s.urls.find? (fun u => u.short_code == slug) with
      | some _ => .error (.slugTaken slug)
      | none => .ok (slug, true)
    else
      match find_unique_code choices s.urls 0 10 with
      | some code => .ok (code, false)
      | none => .error .allocExhausted
  match alloc with
  | .error e => .error e
  | .ok (short_code, is_custom) =>
    let expires_at := compute_expires_at data.expires_in_hours now
    let url_record : URL :=
      { id := next_id, original_url := data.original_url, short_code := short_code,
        is_custom := is_custom, created_at := now, expires_at := expires_at,
        clicks := 0, is_active := true }
    .ok ({ short_code := short_code,
           short_url := BASE_URL ++ "/" ++ short_code,
           original_url := data.original_url,
           created_at := now, expires_at := expires_at, clicks := 0 },
         { s with urls := s.urls ++ [url_record] })

/-- The outcome of POST /api/v1/shorten as seen by the client. -/
inductive CreateOutcome where
  | validationError (detail : String)
  | slugTaken (slug : String)
  | allocExhausted
  | created (resp : URLResponse) (s : AppState)
deriving DecidableEq, Repr

/-- The full creation pipeline: pydantic validation (HTTP 422 on failure)
followed by main.shorten_url. -/
def create_endpoint (raw : RawCreate) (choices : Nat → Nat → Nat) (now : Int)
    (next_id : Nat) (s : AppState) : CreateOutcome :=
  match validate_create raw with
  | .error e => .validationError e
  | .ok data =>
    match shorten_url data choices now next_id s with
    | .error (.slugTaken slug) => .slugTaken slug
    | .error .allocExhausted => .allocExhausted
    | .ok (resp, s1) => .created resp s1

/-- One resolution step viewed as a state transformer: the post-state of
main.redirect_url, the pre-state if the request raised. -/
def redirect_state (short_code : String) (user_agent referer : Option String)
    (now : Int) (s : AppState) : AppState :=
  match redirect_url short_code user_agent referer now s with
  | .ok (_, s1) => s1
  | .error _ => s

/-- N serialized redirects of the same code. -/
def iterate_redirect (short_code : String) (user_agent referer : Option String)
    (now : Int) : Nat → AppState → AppState
  | 0, s => s
  | n + 1, s =>
    iterate_redirect short_code user_agent referer now n
      (redirect_state short_code user_agent referer now s)

/-! ## Sample states used by witnesses and counterexamples -/

/-- A live record for the code "abc123". -/
def sampleRecord : URL :=
  { id := 1, original_url := "http://example.com", short_code := "abc123",
    is_custom := false, created_at := 0, expires_at := none,
    clicks := 0, is_active := true }

/-- A reachable, empty cache with the default TTL. -/
def sampleCacheUp : CacheState := { reachable := true, ttl := 3600, entries := [] }

/-- An unreachable cache. -/
def sampleCacheDown : CacheState := { reachable := false, ttl := 3600, entries := [] }

/-- One live record, empty click log, reachable empty cache. -/
def sampleStateUp : AppState := { urls := [sampleRecord], clicks := [], cache := sampleCacheUp }

/-- One live record, empty click log, unreachable cache. -/
def sampleStateDown : AppState :=
  { urls := [sampleRecord], clicks := [], cache := sampleCacheDown }

/-- No record at all, but a cache entry for "ghost" (record deleted after
caching). -/
def ghostState : AppState :=
  { urls := [], clicks := [],
    cache := { reachable := true, ttl := 3600,
               entries := [("url:ghost", "http://x.example", 3600)] } }

/-- A soft-deleted record for "dead". -/
def deadRecord : URL :=
  { id := 1, original_url := "http://d.example", short_code := "dead",
    is_custom := false, created_at := 0, expires_at := none,
    clicks := 0, is_active := false }

/-- The deactivated record together with a cache entry that survives from
before the deactivation. -/
def deadCachedState : AppState :=
  { urls := [deadRecord], clicks := [],
    cache := { reachable := true, ttl := 3600,
               entries := [("url:dead", "http://d.example", 3600)] } }

/-- The deactivated record with no cache entry for it. -/
def deadMissState : AppState :=
  { urls := [deadRecord], clicks := [], cache := sampleCacheUp }

/-- Empty store with a reachable empty cache. -/
def emptyStateUp : AppState := { urls := [], clicks := [], cache := sampleCacheUp }

/-! ## Helper lemmas -/

/-- A successful cache `get` implies the backend was reachable. -/
theorem get_cached_url_ok_reachable {c : CacheState} {sc : String}
    {o : Option String} (h : get_cached_url c sc = .ok o) : c.reachable = true := by
  unfold get_cached_url redis_get at h
  by_cases hr : c.reachable
  · exact hr
  · simp [hr] at h

/-- `record_click` appends exactly one click event. -/
theorem record_click_clicks (s : AppState) (r : URL) (ua ref : Option String) :
    (record_click s r ua ref).clicks =
      s.clicks ++ [{ url_id := r.id, user_agent := ua, referer := ref }] := rfl

/-- `record_click` leaves the cache untouched. -/
theorem record_click_cache (s : AppState) (r : URL) (ua ref : Option String) :
    (record_click s r ua ref).cache = s.cache := rfl

/-- Incrementing the clicked row does not disturb which record a
code lookup finds: the first record with the code is the incremented image
of the one found before. -/
theorem find?_map_increment (l : List URL) (r : URL) (code : String)
    (h : l.find? (fun u => u.short_code == code) = some r) :
    (l.map (fun u => if u.id == r.id then { u with clicks := u.clicks + 1 } else u)).find?
        (fun u => u.short_code == code) = some { r with clicks := r.clicks + 1 } := by
  induction l with
  | nil => simp at h
  | cons a l ih =>
    rw [List.find?_cons] at h
    rw [List.map_cons, List.find?_cons]
    have hsc : ((if a.id == r.id then { a with clicks := a.clicks + 1 } else a) : URL).short_code
        = a.short_code := by
      by_cases hid : (a.id == r.id) = true <;> simp [hid]
    cases ha : (a.short_code == code) with
    | true =>
      simp only [ha] at h
      obtain rfl : a = r := by injection h
      simp [hsc, ha]
    | false =>
      simp only [ha] at h
      simp only [hsc, ha]
      exact ih h

/-- After `record_click`, the code still resolves to the same record with
its counter incremented by one. -/
theorem find?_record_click (s : AppState) (r : URL) (ua ref : Option String)
    (code : String) (h : s.urls.find? (fun u => u.short_code == code) = some r) :
    (record_click s r ua ref).urls.find? (fun u => u.short_code == code) =
      some { r with clicks := r.clicks + 1 } :=
  find?_map_increment s.urls r code h

/-! ## C6 -/

/-- C6: a reserved-word code is rejected immediately as NotFound; the
response is the same for every store/cache state and the returned state is
the pre-state unchanged, so neither tier is read or written. -/
theorem reserved_word_immediate_notfound
    (short_code : String) (ua ref : Option String) (now : Int) (s : AppState)
    (h : short_code ∈ RESERVED_WORDS) :
    redirect_url short_code ua ref now s = .ok (.notFound "Not found", s) := by
  simp [redirect_url, h]

/-- C6 witness: resolving "api" on a concrete populated state. -/
theorem reserved_word_immediate_notfound_witness :
    redirect_url "api" none none 0 sampleStateUp = .ok (.notFound "Not found", sampleStateUp) :=
  reserved_word_immediate_notfound "api" none none 0 sampleStateUp (by decide)

/-! ## C3 -/

/-- C3 counterexample: with the cache backend unreachable and a live record
for "abc123" in the store, the claim predicts the resolver falls back to
the store and redirects; the code instead propagates the connection error
to the caller (its behaviour differs from the genuine-miss behaviour shown
in the second conjunct), so a cache-tier failure is surfaced. -/
theorem cache_outage_surfaced_cex :
    get_cached_url sampleCacheDown "abc123" = .error .connectionError ∧
    redirect_url "abc123" none none 0 sampleStateDown = .error .connectionError ∧
    redirect_url "abc123" none none 0 sampleStateUp =
      .ok (.redirect "http://example.com",
        { urls := [{ sampleRecord with clicks := 1 }],
          clicks := [{ url_id := 1, user_agent := none, referer := none }],
          cache := { reachable := true, ttl := 3600,
                     entries := [("url:abc123", "http://example.com", 3600)] } }) :=
  ⟨rfl, rfl, rfl⟩

/-- C3 amended: when the cache backend is unreachable, the resolver does
not fall back to the store — the cache client's connection error propagates
out of resolution, and cache put/invalidate likewise raise; cache-tier
failures are surfaced to the caller, not logged and swallowed. -/
theorem cache_outage_error_propagates
    (short_code v : String) (ua ref : Option String) (now : Int) (s : AppState)
    (hdown : s.cache.reachable = false) (hrw : short_code ∉ RESERVED_WORDS) :
    redirect_url short_code ua ref now s = .error .connectionError ∧
    cache_url s.cache short_code v = .error .connectionError ∧
    invalidate_url s.cache short_code = .error .connectionError := by
  refine ⟨?_, ?_, ?_⟩ <;>
    simp [redirect_url, get_cached_url, redis_get, cache_url, redis_setex,
      invalidate_url, hdown, hrw]

/-- C3 amended witness: the unreachable-cache state with code "abc123". -/
theorem cache_outage_error_propagates_witness :
    redirect_url "abc123" none none 0 sampleStateDown = .error .connectionError ∧
    cache_url sampleStateDown.cache "abc123" "http://example.com" = .error .connectionError ∧
    invalidate_url sampleStateDown.cache "abc123" = .error .connectionError :=
  cache_outage_error_propagates "abc123" "http://example.com" none none 0 sampleStateDown
    rfl (by decide)

/-! ## C4 -/

/-- C4 counterexample: in `ghostState` the cache holds a destination for
"ghost" but the record was deleted from the store; resolution succeeds
(HTTP 307 redirect) yet the post-state is unchanged — no ClickEvent is
persisted and no counter incremented, refuting "every successful
resolution persists exactly one ClickEvent". -/
theorem redirect_without_click_cex :
    redirect_url "ghost" none none 0 ghostState =
      .ok (.redirect "http://x.example", ghostState) ∧
    ghostState.clicks.length = 0 ∧ ghostState.urls = [] :=
  ⟨rfl, rfl, rfl⟩

/-! ## C5 -/

/-- C5 counterexample: `deadCachedState` holds a record with
`is_active = false` and a cache entry for its code surviving from before
the deactivation; resolving "dead" redirects (HTTP 307) to the cached
destination instead of returning Gone, refuting "never redirects in every
reachable state". -/
theorem deactivated_still_redirects_cex :
    deadRecord.is_active = false ∧
    redirect_url "dead" none none 0 deadCachedState =
      .ok (.redirect "http://d.example",
        { urls := [{ deadRecord with clicks := 1 }],
          clicks := [{ url_id := 1, user_agent := none, referer := none }],
          cache := deadCachedState.cache }) :=
  ⟨rfl, rfl⟩

/-- C5 amended: when the cache holds no entry for the code, resolving a
record with `is_active = false` returns Gone (Deactivated) — never
NotFound, never a redirect — and leaves the state unchanged; while a
non-empty cache entry for the code survives, the resolver redirects to it
instead. -/
theorem deactivated_gone_on_cache_miss
    (short_code : String) (ua ref : Option String) (now : Int) (s : AppState) (r : URL)
    (hrw : short_code ∉ RESERVED_WORDS)
    (hmiss : get_cached_url s.cache short_code = .ok none)
    (hfind : s.urls.find? (fun u => u.short_code == short_code) = some r)
    (hinact : r.is_active = false) :
    redirect_url short_code ua ref now s = .ok (.gone "This URL has been deactivated!", s) := by
  simp [redirect_url, hrw, hmiss, hfind, hinact]

/-- C5 amended witness: the deactivated record "dead" with an empty
cache. -/
theorem deactivated_gone_on_cache_miss_witness :
    redirect_url "dead" none none 0 deadMissState =
      .ok (.gone "This URL has been deactivated!", deadMissState) :=
  deactivated_gone_on_cache_miss "dead" none none 0 deadMissState deadRecord
    (by decide) rfl rfl rfl

/-! ## C1 -/

/-- C1: on a cache miss the resolver classifies the store outcome in
order — no record: NotFound; inactive: Gone (Deactivated); expired against
the timezone-aware clock: Gone (Expired) — each with the state unchanged,
so in particular the cache is never populated for an inactive or expired
record; otherwise it populates the cache with (code, destination) at the
configured TTL, appends one ClickEvent with the counter increment, and
returns the destination. -/
theorem resolver_miss_path_classification
    (short_code : String) (ua ref : Option String) (now : Int) (s : AppState)
    (hrw : short_code ∉ RESERVED_WORDS)
    (hmiss : get_cached_url s.cache short_code = .ok none) :
    (s.urls.find? (fun u => u.short_code == short_code) = none →
      redirect_url short_code ua ref now s =
        .ok (.notFound ("Short URL " ++ short_code ++ " not found!"), s)) ∧
    (∀ r, s.urls.find? (fun u => u.short_code == short_code) = some r →
      r.is_active = false →
      redirect_url short_code ua ref now s = .ok (.gone "This URL has been deactivated!", s)) ∧
    (∀ r, s.urls.find? (fun u => u.short_code == short_code) = some r →
      r.is_active = true → is_expired r.expires_at now = true →
      redirect_url short_code ua ref now s = .ok (.gone "This URL has expired!", s)) ∧
    (∀ r, s.urls.find? (fun u => u.short_code == short_code) = some r →
      r.is_active = true → is_expired r.expires_at now = false →
      ∃ c1, cache_url s.cache short_code r.original_url = .ok c1 ∧
        c1.entries = ("url:" ++ short_code, r.original_url, s.cache.ttl)
          :: s.cache.entries.filter (fun e => e.1 != "url:" ++ short_code) ∧
        redirect_url short_code ua ref now s =
          .ok (.redirect r.original_url, record_click { s with cache := c1 } r ua ref) ∧
        (record_click { s with cache := c1 } r ua ref).clicks =
          s.clicks ++ [{ url_id := r.id, user_agent := ua, referer := ref }]) := by
  have hup : s.cache.reachable = true := get_cached_url_ok_reachable hmiss
  refine ⟨?_, ?_, ?_, ?_⟩
  · intro hnone
    simp [redirect_url, hrw, hmiss, hnone]
  · intro r hfind hinact
    simp [redirect_url, hrw, hmiss, hfind, hinact]
  · intro r hfind hact hexp
    simp [redirect_url, hrw, hmiss, hfind, hact, hexp]
  · intro r hfind hact hexp
    refine ⟨{ s.cache with entries := ("url:" ++ short_code, r.original_url, s.cache.ttl)
        :: s.cache.entries.filter (fun e => e.1 != "url:" ++ short_code) }, ?_, rfl, ?_, rfl⟩
    · simp [cache_url, redis_setex, hup]
    · simp [redirect_url, hrw, hmiss, hfind, hact, hexp, cache_url, redis_setex, hup]

/-- C1 witness: an unknown code on an empty store classifies NotFound, and
the valid record "abc123" is cached and redirected with one click
recorded. -/
theorem resolver_miss_path_classification_witness :
    redirect_url "zzz000" none none 0 emptyStateUp =
      .ok (.notFound "Short URL zzz000 not found!", emptyStateUp) ∧
    redirect_url "abc123" none none 0 sampleStateUp =
      .ok (.redirect "http://example.com",
        { urls := [{ sampleRecord with clicks := 1 }],
          clicks := [{ url_id := 1, user_agent := none, referer := none }],
          cache := { reachable := true, ttl := 3600,
                     entries := [("url:abc123", "http://example.com", 3600)] } }) := by
  refine ⟨(resolver_miss_path_classification "zzz000" none none 0 emptyStateUp
    (by decide) rfl).1 rfl, ?_⟩
  obtain ⟨c1, hc1, -, hred, -⟩ :=
    (resolver_miss_path_classification "abc123" none none 0 sampleStateUp
      (by decide) rfl).2.2.2 sampleRecord rfl rfl rfl
  obtain rfl : CacheState.mk true 3600 [("url:abc123", "http://example.com", 3600)] = c1 :=
    Except.ok.inj hc1
  exact hred

/-! ## C2 -/

/-- C2: when the cache returns a destination for the code, the resolver
redirects to that cached destination with no re-validation of the record —
for every record (active or not, expired or not) it only attributes one
click, and when no record exists it skips attribution entirely but still
redirects to the cached destination. -/
theorem cache_hit_authoritative
    (short_code v : String) (ua ref : Option String) (now : Int) (s : AppState)
    (hrw : short_code ∉ RESERVED_WORDS)
    (hhit : get_cached_url s.cache short_code = .ok (some v)) (hv : v ≠ "") :
    (∀ r, s.urls.find? (fun u => u.short_code == short_code) = some r →
      redirect_url short_code ua ref now s = .ok (.redirect v, record_click s r ua ref)) ∧
    (s.urls.find? (fun u => u.short_code == short_code) = none →
      redirect_url short_code ua ref now s = .ok (.redirect v, s)) := by
  constructor
  · intro r hfind
    simp [redirect_url, hrw, hhit, hfind, hv]
  · intro hnone
    simp [redirect_url, hrw, hhit, hnone, hv]

/-- C2 witness: the cached "ghost" whose record was deleted still
redirects with no click recorded, and the cached "dead" code redirects
with a click against its (deactivated) record. -/
theorem cache_hit_authoritative_witness :
    redirect_url "ghost" none none 0 ghostState =
      .ok (.redirect "http://x.example", ghostState) ∧
    redirect_url "dead" none none 0 deadCachedState =
      .ok (.redirect "http://d.example", record_click deadCachedState deadRecord none none) :=
  ⟨(cache_hit_authoritative "ghost" "http://x.example" none none 0 ghostState
      (by decide) rfl (by decide)).2 rfl,
   (cache_hit_authoritative "dead" "http://d.example" none none 0 deadCachedState
      (by decide) rfl (by decide)).1 deadRecord rfl⟩

/-! ## C10 -/

/-- C10: on the cache-hit path, a record that is deactivated or already
expired still receives a ClickEvent and a counter increment whenever it is
present in the store, and the resolver still redirects to the cached
destination. -/
theorem stale_record_still_accrues_clicks
    (short_code v : String) (ua ref : Option String) (now : Int) (s : AppState) (r : URL)
    (hrw : short_code ∉ RESERVED_WORDS)
    (hhit : get_cached_url s.cache short_code = .ok (some v)) (hv : v ≠ "")
    (hfind : s.urls.find? (fun u => u.short_code == short_code) = some r)
    (_hstale : r.is_active = false ∨ is_expired r.expires_at now = true) :
    redirect_url short_code ua ref now s = .ok (.redirect v, record_click s r ua ref) ∧
    (record_click s r ua ref).clicks =
      s.clicks ++ [{ url_id := r.id, user_agent := ua, referer := ref }] ∧
    (record_click s r ua ref).urls.find? (fun u => u.short_code == short_code) =
      some { r with clicks := r.clicks + 1 } := by
  refine ⟨?_, rfl, find?_record_click s r ua ref short_code hfind⟩
  simp [redirect_url, hrw, hhit, hfind, hv]

/-- C10 witness: the deactivated, still-cached "dead" record accrues a
click and redirects. -/
theorem stale_record_still_accrues_clicks_witness :
    redirect_url "dead" none none 0 deadCachedState =
      .ok (.redirect "http://d.example", record_click deadCachedState deadRecord none none) ∧
    (record_click deadCachedState deadRecord none none).clicks =
      deadCachedState.clicks ++ [{ url_id := deadRecord.id, user_agent := none, referer := none }] ∧
    (record_click deadCachedState deadRecord none none).urls.find?
        (fun u => u.short_code == "dead") = some { deadRecord with clicks := deadRecord.clicks + 1 } :=
  stale_record_still_accrues_clicks "dead" "http://d.example" none none 0 deadCachedState
    deadRecord (by decide) rfl (by decide) rfl (Or.inl rfl)

/-! ## C4 -/

/-- One resolution of a live, non-expired record through a reachable
cache: it succeeds with a redirect, appends exactly one ClickEvent together
with one counter increment (both inside the single `record_click` commit),
and preserves cache reachability. -/
theorem redirect_step_success
    (short_code : String) (ua ref : Option String) (now : Int) (s : AppState) (r : URL)
    (hrw : short_code ∉ RESERVED_WORDS)
    (hup : s.cache.reachable = true)
    (hfind : s.urls.find? (fun u => u.short_code == short_code) = some r)
    (hact : r.is_active = true)
    (hexp : is_expired r.expires_at now = false) :
    (∃ v, redirect_url short_code ua ref now s =
        .ok (.redirect v, redirect_state short_code ua ref now s)) ∧
    (redirect_state short_code ua ref now s).cache.reachable = true ∧
    (redirect_state short_code ua ref now s).clicks =
      s.clicks ++ [{ url_id := r.id, user_agent := ua, referer := ref }] ∧
    (redirect_state short_code ua ref now s).urls.find? (fun u => u.short_code == short_code) =
      some { r with clicks := r.clicks + 1 } := by
  have ho : get_cached_url s.cache short_code =
      .ok ((s.cache.entries.find? (fun e => e.1 == "url:" ++ short_code)).map (fun e => e.2.1)) := by
    simp [get_cached_url, redis_get, hup]
  by_cases htr :
      (((s.cache.entries.find? (fun e => e.1 == "url:" ++ short_code)).map
        (fun e => e.2.1)).getD "" != "") = true
  · have hredir : redirect_url short_code ua ref now s =
        .ok (.redirect (((s.cache.entries.find? (fun e => e.1 == "url:" ++ short_code)).map
          (fun e => e.2.1)).getD ""), record_click s r ua ref) := by
      simp [redirect_url, hrw, ho, htr, hfind]
    have hstate : redirect_state short_code ua ref now s = record_click s r ua ref := by
      simp [redirect_state, hredir]
    rw [hstate]
    refine ⟨⟨_, hredir⟩, hup, rfl, find?_record_click s r ua ref short_code hfind⟩
  · rw [Bool.not_eq_true] at htr
    have hc1 : cache_url s.cache short_code r.original_url =
        .ok { s.cache with entries := ("url:" ++ short_code, r.original_url, s.cache.ttl)
          :: s.cache.entries.filter (fun e => e.1 != "url:" ++ short_code) } := by
      simp [cache_url, redis_setex, hup]
    have hredir : redirect_url short_code ua ref now s =
        .ok (.redirect r.original_url,
          record_click { s with cache :=
            { s.cache with entries := ("url:" ++ short_code, r.original_url, s.cache.ttl)
              :: s.cache.entries.filter (fun e => e.1 != "url:" ++ short_code) } } r ua ref) := by
      simp [redirect_url, hrw, ho, htr, hfind, hact, hexp, hc1]
    have hstate : redirect_state short_code ua ref now s =
        record_click { s with cache :=
          { s.cache with entries := ("url:" ++ short_code, r.original_url, s.cache.ttl)
            :: s.cache.entries.filter (fun e => e.1 != "url:" ++ short_code) } } r ua ref := by
      simp [redirect_state, hredir]
    rw [hstate]
    exact ⟨⟨_, hredir⟩, hup, rfl,
      find?_map_increment s.urls r short_code hfind⟩

/-- Serialized successful redirects accumulate: after `n` of them the click
log has grown by `n` and the record's counter by `n`. -/
theorem serialized_clicks_aux (short_code : String) (ua ref : Option String) (now : Int) :
    ∀ (n : Nat) (s : AppState) (r : URL),
      short_code ∉ RESERVED_WORDS →
      s.cache.reachable = true →
      s.urls.find? (fun u => u.short_code == short_code) = some r →
      r.is_active = true →
      is_expired r.expires_at now = false →
      (iterate_redirect short_code ua ref now n s).clicks.length = s.clicks.length + n ∧
      (iterate_redirect short_code ua ref now n s).urls.find?
          (fun u => u.short_code == short_code) = some { r with clicks := r.clicks + n } := by
  intro n
  induction n with
  | zero => intro s r _ _ hfind _ _; exact ⟨rfl, hfind⟩
  | succ n ih =>
    intro s r hrw hup hfind hact hexp
    obtain ⟨-, hup1, hclk1, hfind1⟩ :=
      redirect_step_success short_code ua ref now s r hrw hup hfind hact hexp
    have ih2 := ih (redirect_state short_code ua ref now s) { r with clicks := r.clicks + 1 }
      hrw hup1 hfind1 hact hexp
    have hit : iterate_redirect short_code ua ref now (n + 1) s =
        iterate_redirect short_code ua ref now n (redirect_state short_code ua ref now s) := rfl
    rw [hit]
    constructor
    · rw [ih2.1, hclk1]
      simp
      omega
    · rw [ih2.2]
      have : r.clicks + 1 + n = r.clicks + (n + 1) := by omega
      rw [this]

/-- C4 amended: whenever the record for the code is present, active and
unexpired, each successful resolution appends exactly one ClickEvent and
applies exactly one counter increment, both inside the single
`record_click` state update; consequently after `n` serialized successful
redirects the click log grows by `n` and the record's `clicks` by `n`
(equal to `n` for a fresh record, which starts at 0).  On the cache-hit
path with the record deleted, a resolution succeeds with no ClickEvent
(see the counterexample). -/
theorem click_accounting_when_record_present
    (short_code : String) (ua ref : Option String) (now : Int) (s : AppState) (r : URL)
    (hrw : short_code ∉ RESERVED_WORDS)
    (hup : s.cache.reachable = true)
    (hfind : s.urls.find? (fun u => u.short_code == short_code) = some r)
    (hact : r.is_active = true)
    (hexp : is_expired r.expires_at now = false) :
    (∃ v, redirect_url short_code ua ref now s =
        .ok (.redirect v, redirect_state short_code ua ref now s)) ∧
    (redirect_state short_code ua ref now s).clicks =
      s.clicks ++ [{ url_id := r.id, user_agent := ua, referer := ref }] ∧
    (∀ n, (iterate_redirect short_code ua ref now n s).clicks.length = s.clicks.length + n ∧
      (iterate_redirect short_code ua ref now n s).urls.find?
          (fun u => u.short_code == short_code) = some { r with clicks := r.clicks + n }) := by
  obtain ⟨hex, -, hclk, -⟩ :=
    redirect_step_success short_code ua ref now s r hrw hup hfind hact hexp
  exact ⟨hex, hclk, fun n =>
    serialized_clicks_aux short_code ua ref now n s r hrw hup hfind hact hexp⟩

/-- C4 amended witness: three serialized redirects of the live "abc123"
record leave its counter at 3 and three click events in the log. -/
theorem click_accounting_when_record_present_witness :
    (iterate_redirect "abc123" none none 0 3 sampleStateUp).clicks.length = 0 + 3 ∧
    (iterate_redirect "abc123" none none 0 3 sampleStateUp).urls.find?
        (fun u => u.short_code == "abc123") = some { sampleRecord with clicks := 0 + 3 } := by
  have h := (click_accounting_when_record_present "abc123" none none 0 sampleStateUp
    sampleRecord (by decide) rfl rfl rfl rfl).2.2 3
  exact ⟨h.1, h.2⟩

/-! ## C9 -/

/-- C9 counterexample: a creation request with `expires_in_hours = -1`
passes validation (schemas.py has no validator on the field) and creates a
record whose `expires_at` already lies in the past, instead of being
rejected as invalid input. -/
theorem nonpositive_expiry_accepted_cex :
    create_endpoint
        { original_url := "https://example.com", custom_slug := some "neg",
          expires_in_hours := some (-1) } (fun _ _ => 0) 0 1 emptyStateUp =
      .created
        { short_code := "neg", short_url := "https://short.k4scloud.com/neg",
          original_url := "https://example.com", created_at := 0,
          expires_at := some (-3600), clicks := 0 }
        { urls := [{ id := 1, original_url := "https://example.com", short_code := "neg",
                     is_custom := true, created_at := 0, expires_at := some (-3600),
                     clicks := 0, is_active := true }],
          clicks := [], cache := sampleCacheUp } ∧
    (-3600 : Int) < 0 :=
  ⟨by decide, by decide⟩

/-- C9 amended: `expires_in_hours` is optional but carries no positivity
validation — creation succeeds for any integer value.  A positive `h`
yields `expires_at = now + h` hours; absent or zero yields a record that
never expires; a negative `h` yields an `expires_at` already in the
past. -/
theorem expiry_hours_semantics
    (data : URLCreate) (choices : Nat → Nat → Nat) (now : Int) (next_id : Nat)
    (s : AppState) (slug : String) (h : Int)
    (hslug : data.custom_slug = some slug) (hne : slug ≠ "")
    (hfree : s.urls.find? (fun u => u.short_code == slug) = none) :
    shorten_url data choices now next_id s =
      .ok ({ short_code := slug, short_url := BASE_URL ++ "/" ++ slug,
             original_url := data.original_url, created_at := now,
             expires_at := compute_expires_at data.expires_in_hours now, clicks := 0 },
           { s with urls := s.urls ++
             [{ id := next_id, original_url := data.original_url,
                short_code := slug, is_custom := true, created_at := now,
                expires_at := compute_expires_at data.expires_in_hours now,
                clicks := 0, is_active := true }] }) ∧
    compute_expires_at none now = none ∧
    compute_expires_at (some 0) now = none ∧
    (h ≠ 0 → compute_expires_at (some h) now = some (now + h * 3600)) ∧
    (h < 0 → now + h * 3600 < now) := by
  refine ⟨?_, rfl, by simp [compute_expires_at], ?_, ?_⟩
  · simp [shorten_url, hslug, opt_str_truthy, hfree, hne]
  · intro hh
    simp [compute_expires_at, hh]
  · intro hh
    omega

/-- C9 amended witness: creating "neg" with `expires_in_hours = -1`
succeeds; the compute-expiry facts at `h = -1`, `now = 0`. -/
theorem expiry_hours_semantics_witness :
    shorten_url
      { original_url := "https://example.com", custom_slug := some "neg",
        expires_in_hours := some (-1) } (fun _ _ => 0) 0 1 emptyStateUp =
      .ok ({ short_code := "neg", short_url := BASE_URL ++ "/neg",
             original_url := "https://example.com", created_at := 0,
             expires_at := compute_expires_at (some (-1)) 0, clicks := 0 },
           { emptyStateUp with urls :=
             [{ id := 1, original_url := "https://example.com",
                short_code := "neg", is_custom := true, created_at := 0,
                expires_at := compute_expires_at (some (-1)) 0,
                clicks := 0, is_active := true }] }) ∧
    ((-1 : Int) ≠ 0 → compute_expires_at (some (-1)) 0 = some (0 + (-1) * 3600)) ∧
    ((-1 : Int) < 0 → (0 : Int) + (-1) * 3600 < 0) := by
  have h := expiry_hours_semantics
    { original_url := "https://example.com", custom_slug := some "neg",
      expires_in_hours := some (-1) } (fun _ _ => 0) 0 1 emptyStateUp "neg" (-1)
    rfl (by decide) rfl
  exact ⟨h.1, fun _ => h.2.2.2.1 (by decide), fun _ => h.2.2.2.2 (by decide)⟩

/-! ## C7 -/

/-- `py_lower` preserves length. -/
theorem py_lower_length (s : String) : (py_lower s).length = s.length := by
  simp only [py_lower, String.length_mk, List.length_map]
  rfl

/-- A string of nonzero length stays nonempty under `py_lower`. -/
theorem py_lower_ne_empty {s : String} (h : s.length ≠ 0) : py_lower s ≠ "" := by
  intro hc
  apply h
  have h1 := congrArg String.length hc
  rw [py_lower_length] at h1
  simpa using h1

/-- The post-creation state for a fresh custom code. -/
def after_custom_create (data : URLCreate) (slug : String) (now : Int) (next_id : Nat)
    (s : AppState) : AppState :=
  { s with urls := s.urls ++
    [{ id := next_id, original_url := data.original_url,
       short_code := slug, is_custom := true, created_at := now,
       expires_at := compute_expires_at data.expires_in_hours now,
       clicks := 0, is_active := true }] }

/-- C7: a supplied custom code is accepted exactly when its length is
between 3 and 10 and it is alphanumeric, and it is case-folded to
lowercase (to a still-nonempty code); the store is then checked for that
exact code — a hit yields Conflict (`slugTaken`, HTTP 400), otherwise the
code is used as-is with `is_custom = true`; and a second creation with the
same custom code against the resulting state fails with Conflict. -/
theorem custom_code_validation_and_conflict :
    (∀ slug : String,
      (validate_slug (some slug) = .ok (some (py_lower slug)) ↔
        3 ≤ slug.length ∧ slug.length ≤ 10 ∧ str_isalnum slug = true) ∧
      (∀ out, validate_slug (some slug) = .ok out → out = some (py_lower slug)) ∧
      (3 ≤ slug.length → py_lower slug ≠ "")) ∧
    (∀ (data : URLCreate) (choices choices2 : Nat → Nat → Nat) (now now2 : Int)
        (next_id next_id2 : Nat) (s : AppState) (slug : String),
      data.custom_slug = some slug → slug ≠ "" →
      (∀ u, s.urls.find? (fun x => x.short_code == slug) = some u →
        shorten_url data choices now next_id s = .error (.slugTaken slug)) ∧
      (s.urls.find? (fun x => x.short_code == slug) = none →
        shorten_url data choices now next_id s =
          .ok ({ short_code := slug, short_url := BASE_URL ++ "/" ++ slug,
                 original_url := data.original_url, created_at := now,
                 expires_at := compute_expires_at data.expires_in_hours now, clicks := 0 },
               after_custom_create data slug now next_id s) ∧
        shorten_url data choices2 now2 next_id2 (after_custom_create data slug now next_id s) =
          .error (.slugTaken slug))) := by
  constructor
  · intro slug
    refine ⟨⟨?_, ?_⟩, ?_, ?_⟩
    · intro h
      simp only [validate_slug] at h
      by_cases h1 : slug.length < 3
      · rw [if_pos h1] at h
        exact absurd h (by simp)
      · rw [if_neg h1] at h
        by_cases h2 : slug.length > 10
        · rw [if_pos h2] at h
          exact absurd h (by simp)
        · rw [if_neg h2] at h
          by_cases h3 : (!str_isalnum slug) = true
          · rw [if_pos h3] at h
            exact absurd h (by simp)
          · exact ⟨by omega, by omega, by simpa using h3⟩
    · rintro ⟨h1, h2, h3⟩
      simp only [validate_slug]
      rw [if_neg (by omega), if_neg (by omega), if_neg (by simp [h3])]
    · intro out h
      simp only [validate_slug] at h
      by_cases h1 : slug.length < 3
      · rw [if_pos h1] at h
        exact absurd h (by simp)
      · rw [if_neg h1] at h
        by_cases h2 : slug.length > 10
        · rw [if_pos h2] at h
          exact absurd h (by simp)
        · rw [if_neg h2] at h
          by_cases h3 : (!str_isalnum slug) = true
          · rw [if_pos h3] at h
            exact absurd h (by simp)
          · rw [if_neg h3] at h
            exact (Except.ok.inj h).symm
    · intro hlen
      exact py_lower_ne_empty (by omega)
  · intro data choices choices2 now now2 next_id next_id2 s slug hslug hne
    constructor
    · intro u hu
      simp [shorten_url, hslug, opt_str_truthy, hu, hne]
    · intro hfree
      have hfind2 : (after_custom_create data slug now next_id s).urls.find?
          (fun x => x.short_code == slug) =
          some { id := next_id, original_url := data.original_url,
                 short_code := slug, is_custom := true, created_at := now,
                 expires_at := compute_expires_at data.expires_in_hours now,
                 clicks := 0, is_active := true } := by
        simp only [after_custom_create, List.find?_append, hfree]
        simp
      constructor
      · simp [shorten_url, hslug, opt_str_truthy, hfree, hne, after_custom_create]
      · simp [shorten_url, hslug, opt_str_truthy, hfind2, hne]

/-- The store state after creating the custom code "dup1". -/
def dup1State : AppState :=
  { urls := [{ id := 1, original_url := "https://example.com", short_code := "dup1",
               is_custom := true, created_at := 0, expires_at := none,
               clicks := 0, is_active := true }],
    clicks := [], cache := sampleCacheUp }

/-- C7 witness: "DUP1" validates and case-folds to "dup1"; creating "dup1"
on an empty store succeeds, and creating it again yields Conflict. -/
theorem custom_code_validation_and_conflict_witness :
    validate_slug (some "DUP1") = .ok (some "dup1") ∧
    shorten_url
        { original_url := "https://example.com", custom_slug := some "dup1",
          expires_in_hours := none } (fun _ _ => 0) 0 1 emptyStateUp =
      .ok ({ short_code := "dup1", short_url := BASE_URL ++ "/dup1",
             original_url := "https://example.com", created_at := 0,
             expires_at := none, clicks := 0 },
           dup1State) ∧
    shorten_url
        { original_url := "https://example.com", custom_slug := some "dup1",
          expires_in_hours := none } (fun _ _ => 1) 5 2 dup1State =
      .error (.slugTaken "dup1") := by
  refine ⟨(custom_code_validation_and_conflict.1 "DUP1").1.mpr
    ⟨by decide, by decide, by decide⟩, ?_, ?_⟩
  · exact ((custom_code_validation_and_conflict.2
      { original_url := "https://example.com", custom_slug := some "dup1",
        expires_in_hours := none } (fun _ _ => 0) (fun _ _ => 1) 0 5 1 2 emptyStateUp "dup1"
      rfl (by decide)).2 rfl).1
  · exact ((custom_code_validation_and_conflict.2
      { original_url := "https://example.com", custom_slug := some "dup1",
        expires_in_hours := none } (fun _ _ => 0) (fun _ _ => 1) 0 5 1 2 emptyStateUp "dup1"
      rfl (by decide)).2 rfl).2

/-! ## C8 -/

/-- `getD` at an in-range index returns an element of the list. -/
theorem getD_mem_of_lt {l : List Char} {n : Nat} (d : Char) (h : n < l.length) :
    l.getD n d ∈ l := by
  rw [List.getD_eq_getElem?_getD, List.getElem?_eq_getElem h]
  exact List.getElem_mem h

/-- Generated candidates have the fixed length 6. -/
theorem generate_short_code_length (choice : Nat → Nat) :
    (generate_short_code choice 6).length = 6 := by
  simp only [generate_short_code, String.length_mk, List.length_map, List.length_range]

/-- Every character of a candidate is drawn from the 62-character
alphabet. -/
theorem generate_short_code_alphabet (choice : Nat → Nat) :
    ∀ ch ∈ (generate_short_code choice 6).data, ch ∈ CHARACTERS := by
  intro ch hch
  obtain ⟨i, -, rfl⟩ := List.mem_map.mp hch
  exact getD_mem_of_lt 'a' (Nat.mod_lt _ (by decide))

/-- The allocation loop makes at most `remaining` further attempts
starting at `attempts`: a returned code is the first collision-free
candidate, and a `none` return means every candidate in the window
collided. -/
theorem find_unique_code_spec (choices : Nat → Nat → Nat) (urls : List URL) :
    ∀ (remaining attempts : Nat),
      (∀ c, find_unique_code choices urls attempts remaining = some c →
        urls.find? (fun u => u.short_code == c) = none ∧
        ∃ k, attempts ≤ k ∧ k < attempts + remaining ∧
          c = generate_short_code (choices k) 6 ∧
          ∀ j, attempts ≤ j → j < k →
            (urls.find? (fun u => u.short_code == generate_short_code (choices j) 6)).isSome
              = true) ∧
      (find_unique_code choices urls attempts remaining = none →
        ∀ k, attempts ≤ k → k < attempts + remaining →
          (urls.find? (fun u => u.short_code == generate_short_code (choices k) 6)).isSome
            = true) := by
  intro remaining
  induction remaining with
  | zero =>
    intro attempts
    refine ⟨?_, ?_⟩
    · intro c hc
      simp [find_unique_code] at hc
    · intro _ k hk1 hk2
      omega
  | succ remaining ih =>
    intro attempts
    refine ⟨?_, ?_⟩
    · intro c hc
      simp only [find_unique_code] at hc
      cases hfa : urls.find? (fun u => u.short_code == generate_short_code (choices attempts) 6) with
      | none =>
        simp only [hfa] at hc
        obtain rfl : generate_short_code (choices attempts) 6 = c := Option.some.inj hc
        refine ⟨hfa, attempts, Nat.le_refl _, by omega, rfl, ?_⟩
        intro j hj1 hj2
        omega
      | some u =>
        simp only [hfa] at hc
        obtain ⟨hfree, k, hk1, hk2, hgen, hprev⟩ := (ih (attempts + 1)).1 c hc
        refine ⟨hfree, k, by omega, by omega, hgen, ?_⟩
        intro j hj1 hj2
        by_cases hj : j = attempts
        · subst hj
          simp [hfa]
        · exact hprev j (by omega) hj2
    · intro h0 k hk1 hk2
      simp only [find_unique_code] at h0
      cases hfa : urls.find? (fun u => u.short_code == generate_short_code (choices attempts) 6) with
      | none =>
        rw [hfa] at h0
        exact Option.noConfusion h0
      | some u =>
        simp only [hfa] at h0
        by_cases hj : k = attempts
        · subst hj
          simp [hfa]
        · exact (ih (attempts + 1)).2 h0 k (by omega) (by omega)

/-- C8: the alphabet has 62 characters and every candidate is a length-6
string over it; the allocation loop makes at most 10 attempts, uses the
first collision-free candidate (all earlier candidates collided), and when
all 10 candidates collide the creation fails with the server-side
allocation error instead of falling back to any code. -/
theorem allocator_attempts_and_alphabet :
    CHARACTERS.length = 62 ∧
    (∀ choice : Nat → Nat, (generate_short_code choice 6).length = 6 ∧
      ∀ ch ∈ (generate_short_code choice 6).data, ch ∈ CHARACTERS) ∧
    (∀ (choices : Nat → Nat → Nat) (urls : List URL),
      (∀ c, find_unique_code choices urls 0 10 = some c →
        urls.find? (fun u => u.short_code == c) = none ∧
        ∃ k, k < 10 ∧ c = generate_short_code (choices k) 6 ∧
          ∀ j, j < k →
            (urls.find? (fun u => u.short_code == generate_short_code (choices j) 6)).isSome
              = true) ∧
      (find_unique_code choices urls 0 10 = none →
        ∀ k, k < 10 →
          (urls.find? (fun u => u.short_code == generate_short_code (choices k) 6)).isSome
            = true)) ∧
    (∀ (data : URLCreate) (choices : Nat → Nat → Nat) (now : Int) (next_id : Nat) (s : AppState),
      opt_str_truthy data.custom_slug = false →
      (find_unique_code choices s.urls 0 10 = none →
        shorten_url data choices now next_id s = .error .allocExhausted) ∧
      (∀ c, find_unique_code choices s.urls 0 10 = some c →
        shorten_url data choices now next_id s =
          .ok ({ short_code := c, short_url := BASE_URL ++ "/" ++ c,
                 original_url := data.original_url, created_at := now,
                 expires_at := compute_expires_at data.expires_in_hours now, clicks := 0 },
               { s with urls := s.urls ++
                 [{ id := next_id, original_url := data.original_url,
                    short_code := c, is_custom := false, created_at := now,
                    expires_at := compute_expires_at data.expires_in_hours now,
                    clicks := 0, is_active := true }] }))) := by
  refine ⟨rfl, ?_, ?_, ?_⟩
  · intro choice
    exact ⟨generate_short_code_length choice, generate_short_code_alphabet choice⟩
  · intro choices urls
    constructor
    · intro c hc
      obtain ⟨hfree, k, -, hk2, hgen, hprev⟩ := (find_unique_code_spec choices urls 10 0).1 c hc
      exact ⟨hfree, k, by omega, hgen, fun j hj => hprev j (by omega) hj⟩
    · intro h0 k hk
      exact (find_unique_code_spec choices urls 10 0).2 h0 k (by omega) (by omega)
  · intro data choices now next_id s hslug
    constructor
    · intro h0
      simp [shorten_url, hslug, h0]
    · intro c hc
      simp [shorten_url, hslug, hc]

/-- A record already occupying the code "aaaaaa", which the constant-zero
oracle generates on every attempt. -/
def aaaRecord : URL :=
  { id := 1, original_url := "http://a.example", short_code := "aaaaaa",
    is_custom := false, created_at := 0, expires_at := none,
    clicks := 0, is_active := true }

/-- Store holding only `aaaRecord`. -/
def aaaState : AppState := { urls := [aaaRecord], clicks := [], cache := sampleCacheUp }

/-- C8 witness: with the constant-zero oracle every candidate is "aaaaaa";
against `aaaState` all 10 attempts collide and creation fails with the
allocation error, while against the empty store the first candidate is
used. -/
theorem allocator_attempts_and_alphabet_witness :
    (generate_short_code (fun i => i) 6).length = 6 ∧
    find_unique_code (fun _ _ => 0) aaaState.urls 0 10 = none ∧
    shorten_url
        { original_url := "https://example.com", custom_slug := none,
          expires_in_hours := none } (fun _ _ => 0) 0 2 aaaState = .error .allocExhausted ∧
    shorten_url
        { original_url := "https://example.com", custom_slug := none,
          expires_in_hours := none } (fun _ _ => 0) 0 1 emptyStateUp =
      .ok ({ short_code := "aaaaaa", short_url := BASE_URL ++ "/aaaaaa",
             original_url := "https://example.com", created_at := 0,
             expires_at := none, clicks := 0 },
           { emptyStateUp with urls :=
             [{ id := 1, original_url := "https://example.com",
                short_code := "aaaaaa", is_custom := false, created_at := 0,
                expires_at := none, clicks := 0, is_active := true }] }) := by
  refine ⟨(allocator_attempts_and_alphabet.2.1 (fun i => i)).1, by decide, ?_, ?_⟩
  · exact (allocator_attempts_and_alphabet.2.2.2
      { original_url := "https://example.com", custom_slug := none, expires_in_hours := none }
      (fun _ _ => 0) 0 2 aaaState rfl).1 (by decide)
  · exact (allocator_attempts_and_alphabet.2.2.2
      { original_url := "https://example.com", custom_slug := none, expires_in_hours := none }
      (fun _ _ => 0) 0 1 emptyStateUp rfl).2 "aaaaaa" (by decide)
